import Mathlib

/-!
# Verification of the Growzilla backend API client

A shallow embedding of the resilient API client (`ApiClient.request` with
retry/backoff, `ApiClient.checkHealth` with its process-wide cache,
`resolveShopId`, and `ApiClient.getInsights` query building), translated
from the TypeScript source, together with proofs of the specified
properties.

Modelling conventions:
- JavaScript thrown values are modelled by `ThrownError` carrying an
  `isError` flag (for the `instanceof Error` test), a `name` and a
  `message`.
- `String.prototype.includes` is modelled by `strIncludes` (substring
  containment over character lists).
- An HTTP attempt's observable outcome is an `AttemptOutcome`; `request`
  consumes one outcome per attempt from a function `Nat → AttemptOutcome`
  indexed by the retry counter (attempt `k` is the one issued when
  `retryCount = k`), and returns a `RequestTrace` recording the result,
  the number of attempts issued and the backoff delays slept, in order.
  A 2xx response whose body fails to decode is a distinct outcome
  (`AttemptOutcome.decodeFail`): the source returns `response.json()`
  without `await`, so that rejection bypasses the `catch` and is never
  considered for retry.
- Timestamps (`Date.now()`, `Date.getTime()`) are integers (milliseconds).
- JavaScript truthiness of optional strings/numbers/booleans is modelled
  by `jsStringOr`, `natTruthy`, `strTruthy`, `boolTruthy`.
-/

namespace Growzilla

/-! ## Configuration constants (src part_003, lines 33-36) -/

def REQUEST_TIMEOUT_MS : Nat := 10000

def MAX_RETRIES : Nat := 3

def RETRY_DELAYS : List Nat := [1000, 2000, 4000]

def HEALTH_CHECK_CACHE_MS : Int := 60000

/-! ## JavaScript value helpers -/

/-- A thrown JavaScript value: whether it is an `Error` instance, and its
`name` and `message` properties. -/
structure ThrownError where
  isError : Bool
  name : String
  message : String
deriving Repr, DecidableEq

/-- Does the character list `s` start with `pat`? (helper for `strIncludes`). -/
def listStartsWith : List Char → List Char → Bool
  | _, [] => true
  | [], _ :: _ => false
  | c :: cs, d :: ds => c == d && listStartsWith cs ds

/-- Substring containment on character lists (helper for `strIncludes`). -/
def listIncludes : List Char → List Char → Bool
  | [], pat => pat.isEmpty
  | c :: cs, pat => listStartsWith (c :: cs) pat || listIncludes cs pat

/-- `s.includes(pat)` of JavaScript: `pat` occurs as a substring of `s`. -/
def strIncludes (s pat : String) : Bool :=
  listIncludes s.toList pat.toList

/-- `v || dflt` for an optional JavaScript string (`undefined` and `""` are
falsy). -/
def jsStringOr (v : Option String) (dflt : String) : String :=
  match v with
  | some s => if s == "" then dflt else s
  | none => dflt

/-! ## The retry classifier of `ApiClient.request` (lines 179-183)

```ts
const isRetryable =
  error instanceof Error &&
  (error.name === "AbortError" || // Timeout
    error.message.includes("fetch") || // Network error
    error.message.includes("5")); // 5xx errors
```
-/

def isRetryable (e : ThrownError) : Bool :=
  e.isError &&
    (e.name == "AbortError" ||
      strIncludes e.message "fetch" ||
      strIncludes e.message "5")

/-! ## HTTP error message construction (lines 170-173)

```ts
if (!response.ok) {
  const error = await response.json().catch(() => ({ detail: "Unknown error" }));
  throw new Error(error.detail || `API error: ${response.status}`);
}
```

The parse outcome of the error body is `Option (Option String)`:
`none` = body absent or not parseable as JSON, `some none` = parsed JSON
without a `detail` field, `some (some d)` = parsed JSON with `detail` `d`
(the empty string being falsy in JavaScript).
-/

def httpErrorDetail (body : Option (Option String)) : Option String :=
  match body with
  | none => some "Unknown error"
  | some d => d

def httpErrorMessage (status : Nat) (body : Option (Option String)) : String :=
  match httpErrorDetail body with
  | some d => if d == "" then "API error: " ++ toString status else d
  | none => "API error: " ++ toString status

/-- The `Error` thrown by `request` on an HTTP non-2xx response. -/
def httpThrownError (status : Nat) (body : Option (Option String)) : ThrownError :=
  { isError := true, name := "Error", message := httpErrorMessage status body }

/-! ## The request engine (lines 154-199) -/

/-- The observable outcome of one attempt, with three exit paths:

- `success v`: a 2xx response whose body parses; the `return
  response.json()` promise (line 175) resolves with `v`.
- `decodeFail e`: a 2xx response whose `response.json()` promise rejects
  with `e`. Line 175 returns that promise WITHOUT `await` from inside the
  `try`, so by async semantics the rejection bypasses the `catch`: it is
  never run through the retry classifier and surfaces directly to the
  caller.
- `fail e`: a throw that does reach the `catch` — the timeout abort from
  `fetchWithTimeout`, a low-level network failure, the `Error` built from
  an HTTP non-2xx response (whose error-body parse IS awaited at line
  171), or any other exception raised before the return. -/
inductive AttemptOutcome (T : Type) where
  | success (v : T)
  | decodeFail (e : ThrownError)
  | fail (e : ThrownError)

/-- What a call of `request` did: its result, how many attempts were
issued, and the backoff delays slept before retries, in order. -/
structure RequestTrace (T : Type) where
  result : Except ThrownError T
  attemptsMade : Nat
  delays : List Nat

/-- The recursion of `ApiClient.request`: attempt; a 2xx decode failure
(`decodeFail`) bypasses the `catch` and ends the call at once with that
rejection, with no retry classification; on a catch-reaching failure with
`retryCount < MAX_RETRIES` and a retryable classification, sleep
`RETRY_DELAYS[retryCount]` and recurse with `retryCount + 1`; otherwise
rethrow. -/
def requestGo {T : Type} (attempts : Nat → AttemptOutcome T) (retryCount : Nat) :
    RequestTrace T :=
  match attempts retryCount with
  | .success v => { result := .ok v, attemptsMade := 1, delays := [] }
  | .decodeFail e => { result := .error e, attemptsMade := 1, delays := [] }
  | .fail e =>
    if h : retryCount < MAX_RETRIES then
      if isRetryable e then
        let r := requestGo attempts (retryCount + 1)
        { result := r.result,
          attemptsMade := r.attemptsMade + 1,
          delays := RETRY_DELAYS.getD retryCount 0 :: r.delays }
      else
        { result := .error e, attemptsMade := 1, delays := [] }
    else
      { result := .error e, attemptsMade := 1, delays := [] }
termination_by MAX_RETRIES - retryCount
decreasing_by omega

/-- `ApiClient.request` starts with `retryCount = 0`. -/
def request {T : Type} (attempts : Nat → AttemptOutcome T) : RequestTrace T :=
  requestGo attempts 0

/-! ## The health monitor (lines 111-149) -/

/-- The `HealthStatus` interface (lines 43-48); `timestamp` is the epoch
milliseconds of the `Date` stored there. -/
structure HealthStatus where
  healthy : Bool
  version : String
  timestamp : Int
  error : Option String
deriving Repr, DecidableEq

/-- The observable outcome of the health probe
(`fetchWithTimeout` + `response.json()`): a 2xx response with a parsed
body carrying optional `status` and `version` string fields, a non-2xx
response, or a thrown value (timeout abort, network failure, or a JSON
parse failure on the 2xx body — all reaching the same `catch`). -/
inductive ProbeResult where
  | ok (status : Option String) (version : Option String)
  | httpNotOk (status : Nat)
  | exn (isError : Bool) (message : String)
deriving Repr, DecidableEq

/-- Is the cached health status still valid at time `now`
(line 113: `healthCache && now - healthCache.timestamp.getTime() < HEALTH_CHECK_CACHE_MS`)? -/
def healthCacheFresh (cache : Option HealthStatus) (now : Int) : Bool :=
  match cache with
  | some c => now - c.timestamp < HEALTH_CHECK_CACHE_MS
  | none => false

/-- The freshly constructed status written to the cache after a probe
(lines 124-146). -/
def probeStatus (now : Int) (probe : ProbeResult) : HealthStatus :=
  match probe with
  | .ok status version =>
      { healthy := status == some "healthy",
        version := jsStringOr version "unknown",
        timestamp := now,
        error := none }
  | .httpNotOk st =>
      { healthy := false,
        version := "unknown",
        timestamp := now,
        error := some ("HTTP " ++ toString st) }
  | .exn isErr msg =>
      { healthy := false,
        version := "unknown",
        timestamp := now,
        error := some (if isErr then msg else "Unknown error") }

/-- `ApiClient.checkHealth` as a state transformer on the process-wide
`healthCache` cell: given the current cache, the current time and the
probe outcome (consulted only if a probe is issued), it returns the new
cache, the returned status, and whether a network probe was issued. -/
def checkHealth (cache : Option HealthStatus) (now : Int) (probe : ProbeResult) :
    Option HealthStatus × HealthStatus × Bool :=
  match cache with
  | some c =>
      if now - c.timestamp < HEALTH_CHECK_CACHE_MS then
        (some c, c, false)
      else
        let s := probeStatus now probe
        (some s, s, true)
  | none =>
      let s := probeStatus now probe
      (some s, s, true)

/-! ## The shop resolver (lines 332-352) -/

/-- The shop record returned by the backend; `resolveShopId` only reads
its `id` (the backend-issued UUID). -/
structure Shop where
  id : String
deriving Repr, DecidableEq

/-- `process.env.SCOPES || "read_products,read_orders"` (line 344). -/
def resolveScopes (envScopes : Option String) : String :=
  jsStringOr envScopes "read_products,read_orders"

/-- What a call of `resolveShopId` did: the returned value (`none` models
`null`), and the argument triples `(domain, access_token, scopes)` of the
`registerShop` calls it issued, in order. -/
structure ResolveTrace where
  result : Option String
  registerCalls : List (String × String × String)
deriving Repr, DecidableEq

/-- `resolveShopId`: try `getShop(shopDomain)`; on any failure try
`registerShop(shopDomain, accessToken, scopes)` once; on failure of that
too, return `null`. The outcomes of the two underlying requests are the
`lookupResult` and `registerResult` inputs. -/
def resolveShopId (lookupResult : Except ThrownError Shop)
    (registerResult : Except ThrownError Shop)
    (shopDomain accessToken : String) (envScopes : Option String) : ResolveTrace :=
  match lookupResult with
  | .ok shop => { result := some shop.id, registerCalls := [] }
  | .error _ =>
    let scopes := resolveScopes envScopes
    match registerResult with
    | .ok newShop =>
        { result := some newShop.id,
          registerCalls := [(shopDomain, accessToken, scopes)] }
    | .error _ =>
        { result := none,
          registerCalls := [(shopDomain, accessToken, scopes)] }

/-! ## Insights query building (`ApiClient.getInsights`, lines 259-278) -/

/-- The optional `params` argument of `getInsights`; `none` in a field
models an absent property. -/
structure InsightsParams where
  page : Option Nat
  pageSize : Option Nat
  type : Option String
  severity : Option String
  includeDismissed : Option Bool
deriving Repr, DecidableEq

/-- All-absent `params` (also models calling `getInsights` without the
optional argument). -/
def InsightsParams.empty : InsightsParams :=
  { page := none, pageSize := none, type := none, severity := none,
    includeDismissed := none }

/-- JavaScript truthiness of an optional number (`0` is falsy). -/
def natTruthy (v : Option Nat) : Bool :=
  match v with
  | some n => n != 0
  | none => false

/-- JavaScript truthiness of an optional string (`""` is falsy). -/
def strTruthy (v : Option String) : Bool :=
  match v with
  | some s => s != ""
  | none => false

/-- JavaScript truthiness of an optional boolean. -/
def boolTruthy (v : Option Bool) : Bool :=
  match v with
  | some b => b
  | none => false

/-- The `URLSearchParams` built by `getInsights`, as its ordered list of
key/value pairs: `shop_id` from the constructor, then one conditional
`set` per optional parameter, each guarded by the parameter's truthiness. -/
def insightsQuery (shopId : String) (params : InsightsParams) :
    List (String × String) :=
  [("shop_id", shopId)]
    ++ (match params.page with
        | some p => if p != 0 then [("page", toString p)] else []
        | none => [])
    ++ (match params.pageSize with
        | some p => if p != 0 then [("page_size", toString p)] else []
        | none => [])
    ++ (match params.type with
        | some t => if t != "" then [("type", t)] else []
        | none => [])
    ++ (match params.severity with
        | some s => if s != "" then [("severity", s)] else []
        | none => [])
    ++ (match params.includeDismissed with
        | some b => if b then [("include_dismissed", "true")] else []
        | none => [])

/-! ## Concrete example inputs used in witnesses and counterexamples -/

/-- The `Error` thrown by `request` for an HTTP 405 response whose body
parses as JSON without a `detail` field: its message is
`"API error: 405"`, which contains the character `5`. -/
def err405 : ThrownError := httpThrownError 405 (some none)

/-- The abort error produced when the request timeout fires. -/
def errAbort : ThrownError :=
  { isError := true, name := "AbortError", message := "signal is aborted without reason" }

/-- A non-retryable error: an `Error` whose message contains neither
`"fetch"` nor `"5"`. -/
def errPlain : ThrownError :=
  { isError := true, name := "Error", message := "bad request" }

/-- A 2xx-body decode failure whose message happens to contain the
character `5`, so the retry heuristic would accept it — but it never
reaches the `catch`. -/
def errDecode : ThrownError :=
  { isError := true, name := "SyntaxError",
    message := "unexpected character at line 1 column 5" }

/-- A cached health status recorded at time 0. -/
def sampleCached : HealthStatus :=
  { healthy := true, version := "1.2.0", timestamp := 0, error := none }

/-- A shop record with a concrete backend identifier. -/
def sampleShop : Shop := { id := "3f2c0b" }

/-! ## Helper lemmas about the retry recursion -/

theorem requestGo_attemptsMade_pos {T : Type} (a : Nat → AttemptOutcome T) (k : Nat) :
    1 ≤ (requestGo a k).attemptsMade := by
  induction k using requestGo.induct a <;> (rw [requestGo.eq_def]; simp_all) <;>
    split_ifs <;> simp

theorem requestGo_attemptsMade_le {T : Type} (a : Nat → AttemptOutcome T) (k : Nat) :
    (requestGo a k).attemptsMade ≤ MAX_RETRIES - k + 1 := by
  induction k using requestGo.induct a <;> (rw [requestGo.eq_def]; simp_all) <;>
    first
      | omega
      | (split_ifs <;> simp_all <;> omega)

theorem requestGo_delays_eq {T : Type} (a : Nat → AttemptOutcome T) (k : Nat) :
    (requestGo a k).delays =
      (RETRY_DELAYS.drop k).take ((requestGo a k).attemptsMade - 1) := by
  induction k using requestGo.induct a
  case case1 => rw [requestGo.eq_def]; simp_all
  case case2 => rw [requestGo.eq_def]; simp_all
  case case3 k e hfail hlt hr ih =>
    rw [requestGo.eq_def, hfail]
    simp only [if_pos hlt, hr, if_true]
    obtain ⟨m, hm⟩ : ∃ m, (requestGo a (k + 1)).attemptsMade = m + 1 :=
      ⟨_, (Nat.succ_pred_eq_of_pos (requestGo_attemptsMade_pos a (k + 1))).symm⟩
    have hlt3 : k < 3 := by simpa [MAX_RETRIES] using hlt
    interval_cases k <;> simp_all [RETRY_DELAYS]
  case case4 k e hfail hlt hr =>
    rw [requestGo.eq_def, hfail]
    simp [if_pos hlt, hr]
  case case5 k e hfail hge =>
    rw [requestGo.eq_def, hfail]
    simp [hge]




theorem requestGo_result_attempt {T : Type} (a : Nat → AttemptOutcome T) (k : Nat) :
    (∀ v, (requestGo a k).result = .ok v →
      a (k + (requestGo a k).attemptsMade - 1) = .success v) ∧
    (∀ e, (requestGo a k).result = .error e →
      a (k + (requestGo a k).attemptsMade - 1) = .fail e ∨
      a (k + (requestGo a k).attemptsMade - 1) = .decodeFail e) := by
  induction k using requestGo.induct a
  case case1 k v hsucc =>
    rw [requestGo.eq_def, hsucc]
    constructor
    · intro v' hv'
      rw [show v' = v from by injection hv' with h; exact h.symm]
      simpa using hsucc
    · intro e' he'
      cases he'
  case case2 k e hdec =>
    rw [requestGo.eq_def, hdec]
    constructor
    · intro v' hv'
      cases hv'
    · intro e' he'
      refine Or.inr ?_
      rw [show e' = e from by injection he' with h; exact h.symm]
      simpa using hdec
  case case3 k e hfail hlt hr ih =>
    rw [requestGo.eq_def, hfail]
    simp only [dif_pos hlt, hr, ite_true]
    have hidx : k + ((requestGo a (k + 1)).attemptsMade + 1) - 1 =
        k + 1 + (requestGo a (k + 1)).attemptsMade - 1 := by omega
    constructor
    · intro v hv
      have h2 := ih.1 v hv
      rw [show (k + ((requestGo a (k + 1)).attemptsMade + 1) - 1) =
        (k + 1 + (requestGo a (k + 1)).attemptsMade - 1) from hidx]
      exact h2
    · intro e' he'
      have h2 := ih.2 e' he'
      rw [show (k + ((requestGo a (k + 1)).attemptsMade + 1) - 1) =
        (k + 1 + (requestGo a (k + 1)).attemptsMade - 1) from hidx]
      exact h2
  case case4 k e hfail hlt hr =>
    rw [requestGo.eq_def, hfail]
    simp only [dif_pos hlt, hr, ite_false, Bool.false_eq_true]
    constructor
    · intro v hv
      cases hv
    · intro e' he'
      refine Or.inl ?_
      rw [show e' = e from by injection he' with h; exact h.symm]
      simpa using hfail
  case case5 k e hfail hge =>
    rw [requestGo.eq_def, hfail]
    simp only [dif_neg hge]
    constructor
    · intro v hv
      cases hv
    · intro e' he'
      refine Or.inl ?_
      rw [show e' = e from by injection he' with h; exact h.symm]
      simpa using hfail

/-! ## Step lemmas for the retry recursion -/

theorem requestGo_step_success {T : Type} (a : Nat → AttemptOutcome T) (k : Nat) (v : T)
    (hsucc : a k = .success v) :
    requestGo a k = { result := .ok v, attemptsMade := 1, delays := [] } := by
  rw [requestGo.eq_def, hsucc]

theorem requestGo_step_decode {T : Type} (a : Nat → AttemptOutcome T) (k : Nat)
    (e : ThrownError) (hdec : a k = .decodeFail e) :
    requestGo a k = { result := .error e, attemptsMade := 1, delays := [] } := by
  rw [requestGo.eq_def, hdec]

theorem requestGo_step_retry {T : Type} (a : Nat → AttemptOutcome T) (k : Nat)
    (e : ThrownError) (hfail : a k = .fail e)
    (hlt : k < MAX_RETRIES) (hr : isRetryable e = true) :
    requestGo a k =
      { result := (requestGo a (k + 1)).result,
        attemptsMade := (requestGo a (k + 1)).attemptsMade + 1,
        delays := RETRY_DELAYS.getD k 0 :: (requestGo a (k + 1)).delays } := by
  rw [requestGo.eq_def, hfail]
  simp [dif_pos hlt, hr]

theorem requestGo_step_stop {T : Type} (a : Nat → AttemptOutcome T) (k : Nat)
    (e : ThrownError) (hfail : a k = .fail e)
    (hstop : ¬(k < MAX_RETRIES ∧ isRetryable e = true)) :
    requestGo a k = { result := .error e, attemptsMade := 1, delays := [] } := by
  rw [requestGo.eq_def, hfail]
  by_cases hlt : k < MAX_RETRIES
  · have hr : ¬isRetryable e = true := fun hh => hstop ⟨hlt, hh⟩
    simp [dif_pos hlt, hr]
  · simp [dif_neg hlt]

theorem isRetryable_iff (e : ThrownError) :
    isRetryable e = true ↔
      (e.isError = true ∧
        (e.name = "AbortError" ∨
          strIncludes e.message "fetch" = true ∨
          strIncludes e.message "5" = true)) := by
  simp [isRetryable, Bool.and_eq_true, Bool.or_eq_true, beq_iff_eq, or_assoc]

/-- Claim C1 (amended): decode errors on a 2xx body bypass the `catch`
(the un-awaited `return response.json()`) and are never retried, whatever
their message; for every failure that does reach the `catch`, a retry
after the first attempt is issued exactly when the thrown value is an
`Error` instance whose `name` is `"AbortError"`, or whose `message`
contains the substring `"fetch"`, or whose `message` contains the
substring `"5"` — a string heuristic, not the stated timeout/network/5xx
class test. -/
theorem request_retry_classification {T : Type} (a : Nat → AttemptOutcome T)
    (e : ThrownError) :
    (a 0 = .fail e →
      (2 ≤ (request a).attemptsMade ↔
        (e.isError = true ∧
          (e.name = "AbortError" ∨
            strIncludes e.message "fetch" = true ∨
            strIncludes e.message "5" = true)))) ∧
    (a 0 = .decodeFail e →
      (request a).attemptsMade = 1 ∧ (request a).result = .error e) := by
  constructor
  · intro h
    rw [← isRetryable_iff]
    by_cases hr : isRetryable e = true
    · rw [request, requestGo_step_retry a 0 e h (by decide) hr]
      exact ⟨fun _ => hr, fun _ => Nat.succ_le_succ (requestGo_attemptsMade_pos a (0 + 1))⟩
    · rw [request, requestGo_step_stop a 0 e h (fun hc => hr hc.2)]
      exact ⟨fun habs => absurd habs (by simp), fun hc => absurd hc hr⟩
  · intro h
    rw [request, requestGo_step_decode a 0 e h]
    exact ⟨rfl, rfl⟩

/-- Claim C1 counterexample: the claim says an HTTP 4xx error is never
retried, but a request whose attempts all fail with the `Error` built
from an HTTP 405 response (message `"API error: 405"`, which contains the
character `5`) is retried three times: 4 attempts are made and all three
backoff delays are slept. -/
theorem request_retries_a_4xx_error :
    (400 ≤ 405 ∧ 405 < 500) ∧
    isRetryable err405 = true ∧
    (request (T := Unit) (fun _ => .fail err405)).attemptsMade = 4 ∧
    (request (T := Unit) (fun _ => .fail err405)).delays = [1000, 2000, 4000] := by
  refine ⟨by omega, by decide, ?_, ?_⟩ <;>
  · simp [request, requestGo, MAX_RETRIES, RETRY_DELAYS, isRetryable, err405, httpThrownError,
      httpErrorMessage, httpErrorDetail, strIncludes, listIncludes, listStartsWith]
    decide

/-- Claim C1 witness: a timeout abort (an `Error` named `"AbortError"`)
is retried after the first attempt, while a 2xx decode failure whose
message even satisfies the heuristic (it contains `5`) is not retried. -/
theorem request_retry_classification_witness :
    2 ≤ (request (T := Unit) (fun _ => .fail errAbort)).attemptsMade ∧
    isRetryable errDecode = true ∧
    (request (T := Unit) (fun _ => .decodeFail errDecode)).attemptsMade = 1 :=
  ⟨((request_retry_classification (fun _ => .fail errAbort) errAbort).1 rfl).mpr
      (by decide),
    by decide,
    ((request_retry_classification (fun _ => .decodeFail errDecode) errDecode).2 rfl).1⟩

/-- Claim C2: every call of `request` makes at most 4 attempts, and the
delays slept before the retries are, in order, the leading entries of
`RETRY_DELAYS = [1000, 2000, 4000]`: 1000ms before retry 1, 2000ms before
retry 2, 4000ms before retry 3. -/
theorem request_attempt_bound_and_backoff {T : Type} (a : Nat → AttemptOutcome T) :
    (request a).attemptsMade ≤ 4 ∧
    (request a).delays = RETRY_DELAYS.take ((request a).attemptsMade - 1) := by
  constructor
  · have h := requestGo_attemptsMade_le a 0
    simpa [request, MAX_RETRIES] using h
  · have h := requestGo_delays_eq a 0
    simpa [request] using h

/-- Claim C3: when every attempt fails, `request` fails with exactly the
error thrown by the final attempt it made (the attempt at index
`attemptsMade - 1`), not an earlier or substituted one. -/
theorem request_fails_with_final_error {T : Type} (a : Nat → AttemptOutcome T)
    (f : Nat → ThrownError) (hfail : ∀ k, a k = .fail (f k)) :
    (request a).result = .error (f ((request a).attemptsMade - 1)) := by
  cases hres : (request a).result with
  | ok v =>
    have h := (requestGo_result_attempt a 0).1 v hres
    rw [hfail] at h
    cases h
  | error e =>
    rcases (requestGo_result_attempt a 0).2 e hres with h | h <;> rw [hfail] at h
    · have he : e = f (0 + (requestGo a 0).attemptsMade - 1) := by
        injection h with h'
        exact h'.symm
      rw [he]
      simp [request]
    · cases h

/-- Claim C3 witness: with every attempt failing with the same
non-retryable error, `request` fails with that error. -/
theorem request_fails_with_final_error_witness :
    (request (T := Unit) (fun _ => .fail errPlain)).result =
      .error ((fun _ => errPlain)
        ((request (T := Unit) (fun _ => .fail errPlain)).attemptsMade - 1)) :=
  request_fails_with_final_error (fun _ => .fail errPlain) (fun _ => errPlain)
    (fun _ => rfl)

/-- Claim C4 counterexample: the claim says an unparseable (or absent)
error body yields the generic message `"API error: <status>"`, but the
code substitutes the parse-failure fallback `{ detail: "Unknown error" }`,
so an HTTP 500 response with an unparseable body produces the message
`"Unknown error"`, not `"API error: 500"`. -/
theorem http_error_message_unparseable_body :
    httpErrorMessage 500 none = "Unknown error" ∧
    ("Unknown error" : String) ≠ "API error: 500" := by
  constructor
  · rfl
  · decide

/-- Claim C4 (amended): an HTTP non-2xx response with an absent or
unparseable body fails with the message `"Unknown error"`; the generic
`"API error: <status>"` message is used when the body parses as JSON but
carries no `detail` field (or an empty one); a nonempty parsed `detail`
is used as the message. -/
theorem http_error_message_cases (status : Nat) :
    httpErrorMessage status none = "Unknown error" ∧
    httpErrorMessage status (some none) = "API error: " ++ toString status ∧
    httpErrorMessage status (some (some "")) = "API error: " ++ toString status ∧
    (∀ d : String, d ≠ "" → httpErrorMessage status (some (some d)) = d) := by
  refine ⟨rfl, rfl, rfl, ?_⟩
  intro d hd
  simp [httpErrorMessage, httpErrorDetail, hd]

/-- Claim C4 witness: a parsed `detail` field is used as the message. -/
theorem http_error_message_cases_witness :
    httpErrorMessage 404 (some (some "Shop not found")) = "Shop not found" :=
  (http_error_message_cases 404).2.2.2 "Shop not found" (by decide)

/-- Claim C5: if a cached status exists and `now - timestamp` is below
the 60000ms window, `checkHealth` returns the cached value, issues no
probe and leaves the cache untouched; otherwise it issues exactly one
probe and overwrites the cache wholesale with the freshly constructed
status, whatever the probe's outcome (including failures). -/
theorem checkHealth_cache_policy (cache : Option HealthStatus) (now : Int)
    (probe : ProbeResult) :
    (∀ c, cache = some c → now - c.timestamp < HEALTH_CHECK_CACHE_MS →
      checkHealth cache now probe = (some c, c, false)) ∧
    (healthCacheFresh cache now = false →
      checkHealth cache now probe =
        (some (probeStatus now probe), probeStatus now probe, true)) := by
  constructor
  · intro c hc hfresh
    subst hc
    simp [checkHealth, hfresh]
  · intro hstale
    cases cache with
    | none => simp [checkHealth]
    | some c =>
      have h : ¬(now - c.timestamp < HEALTH_CHECK_CACHE_MS) := by
        simpa [healthCacheFresh] using hstale
      simp [checkHealth, h]

/-- Claim C5 witness: a cache entry from time 0 queried at 59999ms is
returned as-is with no probe; the same entry queried at 60000ms is
overwritten by the probe's fresh status. -/
theorem checkHealth_cache_policy_witness :
    checkHealth (some sampleCached) 59999 (.httpNotOk 503) =
      (some sampleCached, sampleCached, false) ∧
    checkHealth (some sampleCached) 60000 (.httpNotOk 503) =
      (some (probeStatus 60000 (.httpNotOk 503)),
        probeStatus 60000 (.httpNotOk 503), true) := by
  constructor
  · exact (checkHealth_cache_policy (some sampleCached) 59999 (.httpNotOk 503)).1
      sampleCached rfl (by decide)
  · exact (checkHealth_cache_policy (some sampleCached) 60000 (.httpNotOk 503)).2
      (by decide)

/-- Claim C6: `checkHealth` is a total function (it never throws), and on
every failure path that issues a probe — non-2xx response, or a thrown
timeout/network/parse error — the returned status has `healthy = false`
and the failure captured in its `error` field. -/
theorem checkHealth_captures_failures (cache : Option HealthStatus) (now : Int)
    (hstale : healthCacheFresh cache now = false) :
    (∀ st, (checkHealth cache now (.httpNotOk st)).2.1.healthy = false ∧
      (checkHealth cache now (.httpNotOk st)).2.1.error =
        some ("HTTP " ++ toString st)) ∧
    (∀ b msg, (checkHealth cache now (.exn b msg)).2.1.healthy = false ∧
      (checkHealth cache now (.exn b msg)).2.1.error =
        some (if b then msg else "Unknown error")) := by
  constructor
  · intro st
    rw [(checkHealth_cache_policy cache now (.httpNotOk st)).2 hstale]
    simp [probeStatus]
  · intro b msg
    rw [(checkHealth_cache_policy cache now (.exn b msg)).2 hstale]
    simp [probeStatus]

/-- Claim C6 witness: with an empty cache, a 503 probe response yields an
unhealthy status carrying `"HTTP 503"` in its `error` field. -/
theorem checkHealth_captures_failures_witness :
    (checkHealth none 0 (.httpNotOk 503)).2.1.healthy = false ∧
    (checkHealth none 0 (.httpNotOk 503)).2.1.error = some ("HTTP " ++ toString 503) :=
  (checkHealth_captures_failures none 0 (by decide)).1 503

/-- Claim C9: when a probe is issued, the returned status is healthy
exactly when the probe was a 2xx response whose parsed body's `status`
field is the string `"healthy"`; a 2xx response with any other `status`
value yields `healthy = false` with no `error` field set. -/
theorem checkHealth_healthy_iff (cache : Option HealthStatus) (now : Int)
    (probe : ProbeResult) (hstale : healthCacheFresh cache now = false) :
    ((checkHealth cache now probe).2.1.healthy = true ↔
      ∃ ver, probe = .ok (some "healthy") ver) ∧
    (∀ st ver, probe = .ok st ver → st ≠ some "healthy" →
      (checkHealth cache now probe).2.1.healthy = false ∧
      (checkHealth cache now probe).2.1.error = none) := by
  rw [(checkHealth_cache_policy cache now probe).2 hstale]
  constructor
  · cases probe with
    | ok st ver =>
      simp only [probeStatus]
      constructor
      · intro h
        refine ⟨ver, ?_⟩
        have : st = some "healthy" := by simpa [beq_iff_eq] using h
        rw [this]
      · rintro ⟨v, hv⟩
        injection hv with h1 h2
        simp [h1]
    | httpNotOk st =>
      simp [probeStatus]
    | exn b msg =>
      simp [probeStatus]
  · rintro st ver rfl hne
    simp [probeStatus, beq_iff_eq, hne]

/-- Claim C9 witness: a 2xx probe whose body has `status = "ok"` yields
`healthy = false` and no `error` field. -/
theorem checkHealth_healthy_iff_witness :
    (checkHealth none 0 (.ok (some "ok") (some "1.2.0"))).2.1.healthy = false ∧
    (checkHealth none 0 (.ok (some "ok") (some "1.2.0"))).2.1.error = none :=
  (checkHealth_healthy_iff none 0 (.ok (some "ok") (some "1.2.0")) (by decide)).2
    (some "ok") (some "1.2.0") rfl (by decide)

/-- Claim C7: `resolveShopId` returns the looked-up identifier and never
calls registration when the lookup succeeds; on any lookup failure it
calls registration exactly once with the domain, the access token and the
configured scopes, returning the registered identifier on success and
`null` (with no escaping exception — the function is total) when
registration also fails. -/
theorem resolveShopId_spec (lk rg : Except ThrownError Shop)
    (dom tok : String) (env : Option String) :
    (∀ s, lk = .ok s →
      resolveShopId lk rg dom tok env = { result := some s.id, registerCalls := [] }) ∧
    (∀ e s, lk = .error e → rg = .ok s →
      resolveShopId lk rg dom tok env =
        { result := some s.id,
          registerCalls := [(dom, tok, resolveScopes env)] }) ∧
    (∀ e1 e2, lk = .error e1 → rg = .error e2 →
      resolveShopId lk rg dom tok env =
        { result := none,
          registerCalls := [(dom, tok, resolveScopes env)] }) := by
  refine ⟨?_, ?_, ?_⟩
  · rintro s rfl
    simp [resolveShopId]
  · rintro e s rfl rfl
    simp [resolveShopId]
  · rintro e1 e2 rfl rfl
    simp [resolveShopId]

/-- Claim C7 witness: a successful lookup returns the looked-up
identifier and issues no registration call. -/
theorem resolveShopId_spec_witness :
    resolveShopId (.ok sampleShop) (.error errPlain) "acme.myshopify.com" "tok" none =
      { result := some sampleShop.id, registerCalls := [] } :=
  (resolveShopId_spec (.ok sampleShop) (.error errPlain)
    "acme.myshopify.com" "tok" none).1 sampleShop rfl

/-- Claim C8: an insights-list request with `pageSize = 5` and
`severity = "high"` and no other optional parameters builds a query
containing exactly `shop_id`, `page_size=5` and `severity=high`, in that
order, omitting `page`, `type` and `include_dismissed`. -/
theorem getInsights_query_scenario (shopId : String) :
    insightsQuery shopId
        { InsightsParams.empty with pageSize := some 5, severity := some "high" } =
      [("shop_id", shopId), ("page_size", "5"), ("severity", "high")] := by
  rfl

/-- Claim C10: falsy optional parameters are dropped: `page = 0`,
`pageSize = 0` and `includeDismissed = false` each produce the same query
as omitting the parameter, so page 0 cannot be requested explicitly; and
`include_dismissed`, when present, always has the value `"true"`. -/
theorem getInsights_falsy_params_dropped (shopId : String) (params : InsightsParams) :
    insightsQuery shopId { params with page := some 0 } =
      insightsQuery shopId { params with page := none } ∧
    insightsQuery shopId { params with pageSize := some 0 } =
      insightsQuery shopId { params with pageSize := none } ∧
    insightsQuery shopId { params with includeDismissed := some false } =
      insightsQuery shopId { params with includeDismissed := none } ∧
    (∀ v, ("include_dismissed", v) ∈ insightsQuery shopId params → v = "true") := by
  refine ⟨by simp [insightsQuery], by simp [insightsQuery], by simp [insightsQuery], ?_⟩
  intro v hv
  rcases params with ⟨p, ps, t, sv, inc⟩
  rcases p with _ | p <;> rcases ps with _ | ps <;> rcases t with _ | t <;>
    rcases sv with _ | sv <;> rcases inc with _ | inc <;>
    simp only [insightsQuery] at hv <;>
    (try split_ifs at hv) <;>
    simp_all

/-- Claim C10 witness: with `page = 0` the query equals the empty-params
query, and the `include_dismissed` entry produced by
`includeDismissed = true` carries the value `"true"`. -/
theorem getInsights_falsy_params_dropped_witness :
    insightsQuery "sid" { InsightsParams.empty with page := some 0 } =
      insightsQuery "sid" { InsightsParams.empty with page := none } ∧
    ("true" : String) = "true" :=
  ⟨(getInsights_falsy_params_dropped "sid" InsightsParams.empty).1,
    (getInsights_falsy_params_dropped "sid"
      { InsightsParams.empty with includeDismissed := some true }).2.2.2
      "true" (by decide)⟩

end Growzilla
